import Mathlib

/-!
Shallow embedding of the SensorScope PCA service (pca_core.py,
data_validation.py, response_formatter.py, local/app.py, gcp/main.py).

Modelling conventions:
* Numeric data is modelled over `ℚ` (the Python code works on float64; no
  claim under verification depends on floating-point rounding, and over `ℚ`
  the zero-variance test `np.var(col) == 0` coincides exactly with "all
  entries of the column are equal").  NaN/Inf checks of the Python code are
  consequently unreachable in the model and are omitted.
* The external scikit-learn calls (`StandardScaler`, `PCA`,
  `make_classification`) are not part of this repository; they are modelled
  as an explicit library argument together with contract predicates
  (`ScalerSpec`, `PcaSpec`) that state exactly the documented behaviour the
  repository code relies on (shapes, mean/std recording, standardisation
  formula).  Two views of `process_pca_request` are given: a
  post-conversion view (`process_pca_request`) over an already-converted
  array and a never-raising library (`SkLib`), used by the claims that are
  conditioned on 2-D numeric input and the library contract, and a full
  view (`process_pca_request_full`) whose raw input (`PyData`) may fail the
  `np.array` conversion and whose library (`SkLibF`) may raise; the two
  agree when conversion succeeds and the library never raises
  (`process_full_agrees`).
* Wall-clock timing and memory readings are modelled as explicit inputs
  (`Timing`); the code only records them into the result dictionaries.
* Python dictionaries produced by the code are modelled as Lean structures
  with one field per key that the code writes at that point.
-/

namespace SensorScope

/-- A 2-D numeric matrix (rows = samples). -/
abbrev Mat := List (List ℚ)

/-- Number of columns as numpy reports it for a (rectangular) 2-D array:
the length of the first row. -/
def nCols (X : Mat) : ℕ := (X.head?.getD []).length

/-- Rectangularity: every row has the common length.  A nested Python list
only converts to a 2-D `np.ndarray` when it is rectangular. -/
def IsRect (X : Mat) : Prop := ∀ r ∈ X, r.length = nCols X

instance (X : Mat) : Decidable (IsRect X) := List.decidableBAll _ X

/-- `list(arr.shape)` for a 2-D array. -/
def shape2 (X : Mat) : List ℕ := [X.length, nCols X]

/-- Column `j` of a matrix (missing entries read as 0; rectangular inputs
never exercise the default). -/
def col (X : Mat) (j : ℕ) : List ℚ := X.map (fun r => r.getD j 0)

/-- Arithmetic mean of a list (numpy `mean`). -/
def meanL (l : List ℚ) : ℚ := l.sum / (l.length : ℚ)

/-- Population variance of a list (numpy `var`, ddof = 0). -/
def varL (l : List ℚ) : ℚ :=
  ((l.map (fun x => (x - meanL l) ^ 2)).sum) / (l.length : ℚ)

/-- `np.mean(X, axis=0)` at column `j`. -/
def colMean (X : Mat) (j : ℕ) : ℚ := meanL (col X j)

/-- `np.var(X, axis=0)` at column `j`. -/
def colVar (X : Mat) (j : ℕ) : ℚ := varL (col X j)

/-- Python `round` to an integer: round half to even. -/
def pyRoundInt (x : ℚ) : ℤ :=
  let f := ⌊x⌋
  let r := x - (f : ℚ)
  if r < 1/2 then f
  else if 1/2 < r then f + 1
  else if f % 2 = 0 then f else f + 1

/-- Python `round(x, d)`. -/
def roundTo (d : ℕ) (x : ℚ) : ℚ :=
  (pyRoundInt (x * (10 : ℚ) ^ d) : ℚ) / (10 : ℚ) ^ d

/-- The result of `np.array(data, dtype=np.float64)`: an n-dimensional
numeric array, classified by its number of dimensions.  `higher` carries a
shape with at least three axes. -/
inductive NpArray where
  | d0 (x : ℚ)
  | d1 (xs : List ℚ)
  | d2 (m : Mat)
  | higher (a b c : ℕ) (rest : List ℕ)
deriving DecidableEq

/-- `arr.ndim`. -/
def npNdim : NpArray → ℕ
  | .d0 _ => 0
  | .d1 _ => 1
  | .d2 _ => 2
  | .higher _ _ _ rest => 3 + rest.length

/-- `list(arr.shape)`. -/
def npShape : NpArray → List ℕ
  | .d0 _ => []
  | .d1 xs => [xs.length]
  | .d2 m => shape2 m
  | .higher a b c rest => a :: b :: c :: rest

/-! ## Model of the external scikit-learn calls -/

/-- Output of `StandardScaler().fit_transform` plus the fitted `mean_` and
`scale_` attributes read by `process_pca_request`. -/
structure ScalerOut where
  transformed : Mat
  mean : List ℚ
  scale : List ℚ

/-- Output of `PCA(n_components=k).fit_transform` plus the fitted
attributes read by `process_pca_request`. -/
structure PcaOut where
  transformed : Mat
  components : Mat
  evr : List ℚ
  nComponentsFitted : ℕ

/-- The external library, passed explicitly to the orchestration model. -/
structure SkLib where
  scalerFit : Mat → ScalerOut
  pcaFit : ℕ → Mat → PcaOut

/-- Documented behaviour of `StandardScaler` on a given input: `mean_` is
the vector of column means, `scale_` is positive with square equal to the
column variance (i.e. the standard deviation), and the transform is
`(x - mean) / scale` columnwise. -/
def ScalerSpec (lib : SkLib) (X : Mat) : Prop :=
  (lib.scalerFit X).mean = (List.range (nCols X)).map (colMean X) ∧
  (lib.scalerFit X).scale.length = nCols X ∧
  (∀ j, j < nCols X →
    0 < (lib.scalerFit X).scale.getD j 0 ∧
    ((lib.scalerFit X).scale.getD j 0) ^ 2 = colVar X j) ∧
  (lib.scalerFit X).transformed =
    X.map (fun r => (List.range (nCols X)).map
      (fun j => (r.getD j 0 - colMean X j) / (lib.scalerFit X).scale.getD j 0))

/-- Documented shape behaviour of `PCA(n_components=k).fit` on an input
with `min(n_samples, n_features) ≥ k`: the transform has one row of length
`k` per sample, `components_` is `k × n_features`,
`explained_variance_ratio_` has length `k`, and `n_components_` is `k`. -/
def PcaSpec (lib : SkLib) : Prop :=
  ∀ k X,
    (lib.pcaFit k X).transformed.length = X.length ∧
    (∀ r ∈ (lib.pcaFit k X).transformed, r.length = k) ∧
    (lib.pcaFit k X).components.length = k ∧
    (∀ r ∈ (lib.pcaFit k X).components, r.length = nCols X) ∧
    (lib.pcaFit k X).evr.length = k ∧
    (lib.pcaFit k X).nComponentsFitted = k

/-- A concrete executable library instance used to evaluate theorems at
concrete inputs.  Its scaler is exact for data whose column variances are
all 1; its PCA is a shape-correct projection. -/
def sampleLib : SkLib where
  scalerFit X :=
    { transformed := X.map (fun r => (List.range (nCols X)).map
        (fun j => (r.getD j 0 - colMean X j) / 1))
      mean := (List.range (nCols X)).map (colMean X)
      scale := List.replicate (nCols X) 1 }
  pcaFit k X :=
    { transformed := X.map (fun r => (List.range k).map (fun j => r.getD j 0))
      components := (List.range k).map (fun _ => List.replicate (nCols X) 0)
      evr := List.replicate k 0
      nComponentsFitted := k }

theorem sampleLib_pcaSpec : PcaSpec sampleLib := by
  intro k X
  refine ⟨by simp [sampleLib], ?_, by simp [sampleLib], ?_, by simp [sampleLib],
    by simp [sampleLib]⟩
  · intro r hr
    simp only [sampleLib, List.mem_map] at hr
    obtain ⟨a, _, rfl⟩ := hr
    simp
  · intro r hr
    simp only [sampleLib, List.mem_map] at hr
    obtain ⟨a, _, rfl⟩ := hr
    simp

/-! ## pca_core.py : `process_pca_request` -/

/-- Wall-clock / memory readings of a run, recorded (not computed) by the
code.  `execMs` is the elapsed time measured on the success path, `errMs`
the one measured in the exception handler. -/
structure Timing where
  execMs : ℚ
  errMs : ℚ
  memUsedMb : ℚ
  peakMemMb : ℚ
deriving DecidableEq

/-- The validation errors `process_pca_request` raises internally (all are
Python `ValueError`s); each constructor carries the data interpolated into
the message. -/
inductive CoreErr where
  | notTwoDim
  | tooFewSamples (n : ℕ)
  | tooFewFeatures (m : ℕ)
  | nCompTooLarge (k : ℤ) (maxc : ℕ)
  | nCompTooSmall (k : ℤ)
  | zeroVariance (idxs : List ℕ)
deriving DecidableEq

/-- The Python message text of each internal raise in `process_pca_request`. -/
def coreErrMsg : CoreErr → String
  | .notTwoDim => "Data must be 2-dimensional (samples × features)"
  | .tooFewSamples n => "Need at least 2 samples for PCA, got " ++ toString n
  | .tooFewFeatures m => "Need at least 1 feature for PCA, got " ++ toString m
  | .nCompTooLarge k maxc =>
      "n_components (" ++ toString k ++ ") cannot exceed " ++
      "min(n_samples, n_features) = " ++ toString maxc
  | .nCompTooSmall k => "n_components must be at least 1, got " ++ toString k
  | .zeroVariance idxs =>
      "Features " ++ toString idxs ++ " have zero variance. " ++
      "Remove constant features before PCA analysis."

/-- The `performance` sub-dict of a successful result. -/
structure Perf where
  execution_time_ms : ℚ
  memory_used_mb : ℚ
  peak_memory_mb : ℚ
deriving DecidableEq

/-- The `scaling_parameters` sub-dict (`mean` / `std`). -/
structure ScalingParams where
  mean : List ℚ
  std : List ℚ
deriving DecidableEq

/-- The `metadata` sub-dict of a successful result. -/
structure PcaMetadata where
  n_components_requested : ℤ
  n_components_actual : ℕ
  scaling_parameters : Option ScalingParams
deriving DecidableEq

/-- The success dictionary built by `process_pca_request` (sans the
constant `"status": "success"` entry, carried by the `PcaResultR`
constructor). -/
structure PcaSuccess where
  input_shape : List ℕ
  output_shape : List ℕ
  explained_variance_ratio : List ℚ
  total_variance_explained : ℚ
  principal_components : Mat
  transformed_data : Mat
  scaling_applied : Bool
  performance : Perf
  metadata : PcaMetadata
deriving DecidableEq

/-- The single-quote character, used when building Python message strings
that contain quotes. -/
def sq : String := String.singleton (Char.ofNat 39)

/-- `str(type(data))` after the `np.array` conversion succeeded. -/
def ndarrayTypeStr : String := "<class " ++ sq ++ "numpy.ndarray" ++ sq ++ ">"

/-- The `input_info` sub-dict of an error result.  `data_type` is the
`str(type(data))` of the converted array; `data_shape` is its shape. -/
structure InputInfo where
  data_type : String
  data_shape : List ℕ
  n_components_requested : ℤ
  scale_features : Bool
deriving DecidableEq

/-- The error dictionary built by `process_pca_request`'s handler (sans
the constant `"status": "error"` entry). -/
structure PcaErrorR where
  error_type : String
  error_message : String
  input_info : InputInfo
  execution_time_ms : ℚ
deriving DecidableEq

/-- Return value of `process_pca_request`: a dict whose `status` is either
`"success"` or `"error"`. -/
inductive PcaResultR where
  | success (s : PcaSuccess)
  | error (e : PcaErrorR)
deriving DecidableEq

/-- The `"status"` entry of the result dict. -/
def PcaResultR.statusStr : PcaResultR → String
  | .success _ => "success"
  | .error _ => "error"

/-- The success dictionary assembled by `process_pca_request` after the
validation checks pass (pca_core.py lines 82-132): scaling when requested,
PCA on the (possibly scaled) data, performance and metadata sections. -/
def mkSuccess (lib : SkLib) (t : Timing) (X : Mat) (k : ℤ) (scale : Bool) :
    PcaSuccess :=
  let scalerO := lib.scalerFit X
  let scaled := if scale then scalerO.transformed else X
  let p := lib.pcaFit k.toNat scaled
  { input_shape := [X.length, nCols X]
    output_shape := shape2 p.transformed
    explained_variance_ratio := p.evr
    total_variance_explained := p.evr.sum
    principal_components := p.components
    transformed_data := p.transformed
    scaling_applied := scale
    performance :=
      ⟨roundTo 2 t.execMs, roundTo 2 t.memUsedMb, roundTo 2 t.peakMemMb⟩
    metadata :=
      ⟨k, p.nComponentsFitted,
        if scale then some ⟨scalerO.mean, scalerO.scale⟩ else none⟩ }

/-- The body of the `try` block of `process_pca_request`: validation and,
on success, scaling + PCA + result assembly.  Mirrors pca_core.py lines
50-132. -/
def pcaCoreExc (lib : SkLib) (t : Timing) (a : NpArray) (k : ℤ)
    (scale : Bool) : Except CoreErr PcaSuccess :=
  match a with
  | .d2 X =>
    let n := X.length
    let m := nCols X
    if n < 2 then .error (.tooFewSamples n)
    else if m < 1 then .error (.tooFewFeatures m)
    else if (k : ℤ) > ((min n m : ℕ) : ℤ) then .error (.nCompTooLarge k (min n m))
    else if k < 1 then .error (.nCompTooSmall k)
    else
      let constF := (List.range m).filter (fun j => decide (colVar X j = 0))
      if constF = [] then .ok (mkSuccess lib t X k scale)
      else .error (.zeroVariance constF)
  | _ => .error .notTwoDim

/-- `process_pca_request(data, n_components, scale_features)`: wraps the
body in the catch-all `except` that turns any raised `ValueError` into the
error dictionary (pca_core.py lines 134-153). -/
def process_pca_request (lib : SkLib) (t : Timing) (a : NpArray) (k : ℤ)
    (scale : Bool) : PcaResultR :=
  match pcaCoreExc lib t a k scale with
  | .ok s => .success s
  | .error e =>
    .error
      { error_type := "ValueError"
        error_message := coreErrMsg e
        input_info :=
          { data_type := ndarrayTypeStr
            data_shape := npShape a
            n_components_requested := k
            scale_features := scale }
        execution_time_ms := roundTo 2 t.errMs }

/-! ### The full model: conversion failures and library raises

`process_pca_request` above is the post-conversion view.  The catch-all
`except` of pca_core.py also encloses the `np.array` conversion (line 52)
and the scaler / PCA calls (lines 84-95), so the full model below lets
both fail. -/

/-- A raised Python exception: its type name and message. -/
structure PyExc where
  etype : String
  msg : String
deriving DecidableEq

/-- The raw `data` argument before the `np.array` conversion at
pca_core.py line 52: either the conversion succeeds with an array, or it
raises (ragged nesting, non-numeric entries, ...); `typeStr` is
`str(type(data))` of the unconverted object (e.g. a list). -/
inductive PyData where
  | conv (a : NpArray)
  | malformed (typeStr : String) (exc : PyExc)
deriving DecidableEq

/-- `getattr(data, 'shape', 'unknown')`: the shape attribute when `data`
is an array, the string `'unknown'` otherwise. -/
inductive ShapeAttr where
  | shape (s : List ℕ)
  | unknown
deriving DecidableEq

/-- `input_info` of the full model: `data_shape` is `'unknown'` when the
conversion failed and `data` is still the original shapeless object. -/
structure FullInputInfo where
  data_type : String
  data_shape : ShapeAttr
  n_components_requested : ℤ
  scale_features : Bool
deriving DecidableEq

/-- The error dictionary of the full model. -/
structure FullError where
  error_type : String
  error_message : String
  input_info : FullInputInfo
  execution_time_ms : ℚ
deriving DecidableEq

/-- Return value of the full model of `process_pca_request`. -/
inductive FullResult where
  | success (s : PcaSuccess)
  | error (e : FullError)
deriving DecidableEq

/-- The `"status"` entry of the full result dict. -/
def FullResult.statusStr : FullResult → String
  | .success _ => "success"
  | .error _ => "error"

/-- The external library with fallible calls: `fit_transform` of either
the scaler or the PCA may raise. -/
structure SkLibF where
  scalerFit : Mat → Except PyExc ScalerOut
  pcaFit : ℕ → Mat → Except PyExc PcaOut

/-- The `try` body over a converted array with a fallible library
(pca_core.py lines 54-132): the validation raises are `ValueError`s with
the messages of `coreErrMsg`; raises from the library calls propagate. -/
def coreF (lib : SkLibF) (t : Timing) (a : NpArray) (k : ℤ) (scale : Bool) :
    Except PyExc PcaSuccess :=
  match a with
  | .d2 X =>
    let n := X.length
    let m := nCols X
    if n < 2 then .error ⟨"ValueError", coreErrMsg (.tooFewSamples n)⟩
    else if m < 1 then .error ⟨"ValueError", coreErrMsg (.tooFewFeatures m)⟩
    else if (k : ℤ) > ((min n m : ℕ) : ℤ) then
      .error ⟨"ValueError", coreErrMsg (.nCompTooLarge k (min n m))⟩
    else if k < 1 then .error ⟨"ValueError", coreErrMsg (.nCompTooSmall k)⟩
    else
      let constF := (List.range m).filter (fun j => decide (colVar X j = 0))
      if constF = [] then
        (if scale then
            (lib.scalerFit X).map
              (fun o => (o.transformed, some (⟨o.mean, o.scale⟩ : ScalingParams)))
          else .ok (X, none)).bind
          (fun pr =>
            (lib.pcaFit k.toNat pr.1).map
              (fun p =>
                { input_shape := [n, m]
                  output_shape := shape2 p.transformed
                  explained_variance_ratio := p.evr
                  total_variance_explained := p.evr.sum
                  principal_components := p.components
                  transformed_data := p.transformed
                  scaling_applied := scale
                  performance := ⟨roundTo 2 t.execMs, roundTo 2 t.memUsedMb,
                    roundTo 2 t.peakMemMb⟩
                  metadata := ⟨k, p.nComponentsFitted, pr.2⟩ }))
      else .error ⟨"ValueError", coreErrMsg (.zeroVariance constF)⟩
  | _ => .error ⟨"ValueError", coreErrMsg .notTwoDim⟩

/-- The full `process_pca_request`: the `np.array` conversion (line 52)
and the library calls may raise; the catch-all handler (lines 134-153)
turns any raised exception into the error dictionary, reading
`type(data)` and `getattr(data, 'shape', 'unknown')` from whatever `data`
is bound to at raise time (the original object when the conversion itself
raised, the converted array afterwards). -/
def process_pca_request_full (lib : SkLibF) (t : Timing) (d : PyData) (k : ℤ)
    (scale : Bool) : FullResult :=
  match d with
  | .malformed typeStr exc =>
    .error { error_type := exc.etype
             error_message := exc.msg
             input_info := { data_type := typeStr
                             data_shape := .unknown
                             n_components_requested := k
                             scale_features := scale }
             execution_time_ms := roundTo 2 t.errMs }
  | .conv a =>
    match coreF lib t a k scale with
    | .ok s => .success s
    | .error exc =>
      .error { error_type := exc.etype
               error_message := exc.msg
               input_info := { data_type := ndarrayTypeStr
                               data_shape := .shape (npShape a)
                               n_components_requested := k
                               scale_features := scale }
               execution_time_ms := roundTo 2 t.errMs }

/-- Embed a never-raising library into the fallible interface. -/
def SkLib.toFallible (lib : SkLib) : SkLibF :=
  ⟨fun X => .ok (lib.scalerFit X), fun k X => .ok (lib.pcaFit k X)⟩

/-- Embed a post-conversion result into the full result type. -/
def liftResult : PcaResultR → FullResult
  | .success s => .success s
  | .error e =>
    .error ⟨e.error_type, e.error_message,
      ⟨e.input_info.data_type, .shape e.input_info.data_shape,
        e.input_info.n_components_requested, e.input_info.scale_features⟩,
      e.execution_time_ms⟩

/-! ## data_validation.py : `validate_input_data` -/

/-- The `ValueError`s raised by `validate_input_data`; each constructor
carries the data interpolated into the message.  The NaN / Inf branches of
the Python code cannot fire over `ℚ` and have no constructor. -/
inductive DVError where
  | scalarData
  | oneDim
  | tooManyDims (ndim : ℕ)
  | tooFewSamples (n : ℕ)
  | tooFewFeatures (m : ℕ)
  | zeroVariance (idxs : List ℕ)
deriving DecidableEq

/-- The Python message text of each raise in `validate_input_data`. -/
def dvErrMsg : DVError → String
  | .scalarData => "Data cannot be a scalar value"
  | .oneDim =>
      "Data must be 2-dimensional (samples × features). " ++
      "Got 1D array - reshape to (n_samples, 1) for single feature."
  | .tooManyDims d => "Data must be 2-dimensional, got " ++ toString d ++ " dimensions"
  | .tooFewSamples n => "Need at least 2 samples for PCA analysis, got " ++ toString n
  | .tooFewFeatures m => "Need at least 1 feature for PCA analysis, got " ++ toString m
  | .zeroVariance idxs =>
      "Features at indices " ++ toString idxs ++ " have zero variance. " ++
      "Remove constant features or add variation to proceed with PCA."

/-- `validate_input_data` on the converted numeric array
(data_validation.py lines 150-213).  The warning computation at the end
does not affect the returned array and is omitted. -/
def validate_input_data (a : NpArray) : Except DVError Mat :=
  match a with
  | .d0 _ => .error .scalarData
  | .d1 _ => .error .oneDim
  | .higher x y z rest => .error (.tooManyDims (npNdim (.higher x y z rest)))
  | .d2 X =>
    let n := X.length
    let m := nCols X
    if n < 2 then .error (.tooFewSamples n)
    else if m < 1 then .error (.tooFewFeatures m)
    else
      let constF := (List.range m).filter (fun j => decide (colVar X j = 0))
      if constF = [] then .ok X
      else .error (.zeroVariance constF)

/-! ## response_formatter.py : `format_response` -/

/-- The `troubleshooting` dict built by `_generate_error_guidance`. -/
structure Guidance where
  common_solutions : List String
  next_steps : List String
  documentation : String
deriving DecidableEq

/-- Python `pat in s` on strings. -/
def strContains (s pat : String) : Bool := decide (pat.toList <:+: s.toList)

/-- `_generate_error_guidance` (response_formatter.py lines 227-276). -/
def errorGuidance (error_type error_message : String) : Guidance :=
  let base : List String :=
    if error_type = "ValueError" then
      if strContains error_message "2-dimensional" then
        ["Ensure data is formatted as [[row1], [row2], ...] with samples as rows",
         "Single feature data should be shaped as [[x1], [x2], ...] not [x1, x2, ...]",
         "Convert 1D arrays using data.reshape(-1, 1) for single feature analysis"]
      else if strContains error_message "n_components" then
        ["Reduce n_components to be less than min(n_samples, n_features)",
         "Increase sample size or reduce requested components",
         "For small datasets, try n_components=1 or 2"]
      else if strContains error_message "zero variance" then
        ["Remove constant features (columns with same value for all samples)",
         "Check for data import issues that might create constant columns",
         "Add small amount of noise to constant features if scientifically appropriate"]
      else []
    else if error_type = "TypeError" then
      ["Ensure all data values are numeric (no text or missing values)",
       "Convert string numbers to floats: [[float(x) for x in row] for row in data]",
       "Replace missing values with appropriate numeric substitutes"]
    else []
  { common_solutions := base
    next_steps :=
      ["Validate input data format using the data validation examples",
       "Test with sample data first: \x7b\"use_sample_data\": true\x7d",
       "Check the health endpoint to verify service is running correctly",
       "Review the business context to ensure PCA is appropriate for your use case"]
    documentation := "See project README.md for detailed troubleshooting" }

/-- The `variance_analysis` sub-dict of a success response. -/
structure VarAnalysis where
  explained_variance_ratio : List ℚ
  total_variance_explained : ℚ
  variance_percentages : List ℚ
deriving DecidableEq

/-- The `sample_transformed_data` sub-dict (the constant `note` string is
omitted). -/
structure SampleTD where
  first_5_samples : Mat
  total_samples : ℕ
deriving DecidableEq

/-- The `analysis` section of a success response.  `transformed_data` and
`sample_transformed_data` are `Option`s because the code includes at most
one of the two keys. -/
structure AnalysisSec where
  input_dimensions : List ℕ
  output_dimensions : List ℕ
  variance_analysis : VarAnalysis
  principal_components : Mat
  scaling_applied : Bool
  n_components : ℤ
  transformed_data : Option Mat
  sample_transformed_data : Option SampleTD
deriving DecidableEq

/-- The `error` section of an error response. -/
structure ErrorSec where
  etype : String
  message : String
  input_info : InputInfo
  timestamp : String
deriving DecidableEq

/-- The formatted JSON envelope returned by `format_response`.  The
`business_insights` section is pure string templating computed by
`_generate_business_insights` from the success dict and the business
context; its rendering is abstracted as a caller-supplied function
`ins` of exactly those two inputs, with result type `ι`.  The constant
`service` / `version` entries are identical in both branches and omitted. -/
inductive FormattedResponse (ι : Type) where
  | success (timestamp platform : String) (analysis : AnalysisSec)
      (performance : Perf) (business_insights : ι)
  | error (timestamp platform : String) (error : ErrorSec)
      (execution_time_ms : ℚ) (troubleshooting : Guidance)
deriving DecidableEq

/-- The `"status"` entry of a formatted response. -/
def FormattedResponse.statusStr : FormattedResponse ι → String
  | .success _ _ _ _ _ => "success"
  | .error _ _ _ _ _ => "error"

/-- The `analysis` section, when present. -/
def FormattedResponse.analysis? : FormattedResponse ι → Option AnalysisSec
  | .success _ _ a _ _ => some a
  | .error _ _ _ _ _ => none

/-- The business context dict, restricted to the keys the code reads or
writes. -/
structure BCtx where
  cost_per_sensor : Option ℚ
  analysis_type : Option String
deriving DecidableEq

/-- `format_response(pca_results, platform, include_raw_data,
business_context)` (response_formatter.py lines 14-93), with the response
timestamp `ts` supplied by the caller of the model. -/
def format_response {ι : Type} (ins : PcaSuccess → BCtx → ι) (ts platform : String)
    (include_raw_data : Bool) (bc : BCtx) (pca_results : PcaResultR) :
    FormattedResponse ι :=
  match pca_results with
  | .success s =>
    let va : VarAnalysis :=
      { explained_variance_ratio := s.explained_variance_ratio
        total_variance_explained := roundTo 4 s.total_variance_explained
        variance_percentages :=
          s.explained_variance_ratio.map (fun r => roundTo 2 (r * 100)) }
    let tdFields : Option Mat × Option SampleTD :=
      if include_raw_data then (some s.transformed_data, none)
      else if 5 < s.transformed_data.length then
        (none, some ⟨s.transformed_data.take 5, s.transformed_data.length⟩)
      else (some s.transformed_data, none)
    .success ts platform
      { input_dimensions := s.input_shape
        output_dimensions := s.output_shape
        variance_analysis := va
        principal_components := s.principal_components
        scaling_applied := s.scaling_applied
        n_components := s.metadata.n_components_requested
        transformed_data := tdFields.1
        sample_transformed_data := tdFields.2 }
      s.performance (ins s bc)
  | .error e =>
    .error ts platform
      { etype := e.error_type
        message := e.error_message
        input_info := e.input_info
        timestamp := ts }
      e.execution_time_ms
      (errorGuidance e.error_type e.error_message)

/-! ## HTTP handlers : local/app.py `pca_analysis` and gcp/main.py
`sensorscope_pca` (POST path)

The JSON request object is modelled as a record with one `Option` field
per key either handler reads, plus a count of unmodelled keys (so that the
Python truthiness test `if not request_data` — true exactly for the empty
object — is expressible). -/

structure Req where
  use_sample_data : Option Bool
  coffee_shop_sample : Option Bool
  data : Option NpArray
  n_components : Option ℤ
  n_samples : Option ℤ
  n_features : Option ℤ
  n_redundant : Option ℤ
  n_informative : Option ℤ
  random_state : Option ℤ
  scale_features : Option Bool
  include_raw_data : Option Bool
  business_context : Option BCtx
  location : Option String
  hours : Option ℤ
  sensor_types : Option (List String)
  gcs_bucket : Option String
  gcs_file_path : Option String
  otherKeys : ℕ
deriving DecidableEq

/-- The empty JSON object `{}`. -/
def emptyReq : Req :=
  ⟨none, none, none, none, none, none, none, none, none, none, none, none,
   none, none, none, none, none, 0⟩

/-- Python truthiness of `request_data.get(key)` for a string-valued key. -/
def truthyStr : Option String → Bool
  | some s => decide (s ≠ "")
  | none => false

/-- Where the matrix handed to `process_pca_request` comes from. -/
inductive DataSource where
  | coffee (location : String) (hours : ℤ) (sensorTypes : Option (List String))
  | generated (nSamples nFeatures nRedundant nInformative randomState : ℤ)
  | uploaded (d : NpArray)
deriving DecidableEq

/-- Where the `business_context` passed to `format_response` comes from. -/
inductive BCSel where
  | fromDataset
  | generatedDefault
  | fromRequest (bc : Option BCtx)
deriving DecidableEq

/-- Requests rejected before any data handling. -/
inductive RejectReason where
  | invalidJson
  | emptyBody
  | missingData
deriving DecidableEq

/-- The dispatch decision a handler takes on a parsed request: reject,
run the PCA pipeline on a data source, or (cloud only) load from GCS. -/
inductive Dispatch where
  | reject (r : RejectReason)
  | run (src : DataSource) (bcSel : BCSel) (k : ℤ) (scale : Bool)
      (includeRaw : Bool)
  | runGcs (bucket path : String) (k : ℤ) (scale : Bool) (includeRaw : Bool)
deriving DecidableEq

/-- Dispatch of the local Flask endpoint `pca_analysis`
(local/app.py lines 63-129): `None` models `request.get_json()` returning
`None`.  Defaults: `n_components` 2, sample generation 100/5/2/3/42. -/
def localDispatch : Option Req → Dispatch
  | none => .reject .invalidJson
  | some r =>
    if r.use_sample_data.getD false then
      if r.coffee_shop_sample.getD false then
        .run (.coffee (r.location.getD "downtown") (r.hours.getD 24) r.sensor_types)
          .fromDataset (r.n_components.getD 2) (r.scale_features.getD true)
          (r.include_raw_data.getD false)
      else
        .run (.generated (r.n_samples.getD 100) (r.n_features.getD 5)
            (r.n_redundant.getD 2) (r.n_informative.getD 3) (r.random_state.getD 42))
          .generatedDefault (r.n_components.getD 2) (r.scale_features.getD true)
          (r.include_raw_data.getD false)
    else
      match r.data with
      | none => .reject .missingData
      | some d =>
        .run (.uploaded d) (.fromRequest r.business_context) (r.n_components.getD 2)
          (r.scale_features.getD true) (r.include_raw_data.getD false)

/-- Dispatch of the cloud function `sensorscope_pca` for a POST request
(gcp/main.py lines 139-240): rejects the empty body, tries GCS first, and
uses the cloud defaults: `n_components` 5, sample generation 100/20/8/12/42. -/
def gcpDispatch : Option Req → Dispatch
  | none => .reject .invalidJson
  | some r =>
    if r = emptyReq then .reject .emptyBody
    else if truthyStr r.gcs_bucket && truthyStr r.gcs_file_path then
      .runGcs (r.gcs_bucket.getD "") (r.gcs_file_path.getD "")
        (r.n_components.getD 5) (r.scale_features.getD true)
        (r.include_raw_data.getD false)
    else if r.use_sample_data.getD false then
      if r.coffee_shop_sample.getD false then
        .run (.coffee (r.location.getD "downtown") (r.hours.getD 24) r.sensor_types)
          .fromDataset (r.n_components.getD 5) (r.scale_features.getD true)
          (r.include_raw_data.getD false)
      else
        .run (.generated (r.n_samples.getD 100) (r.n_features.getD 20)
            (r.n_redundant.getD 8) (r.n_informative.getD 12) (r.random_state.getD 42))
          .generatedDefault (r.n_components.getD 5) (r.scale_features.getD true)
          (r.include_raw_data.getD false)
    else
      match r.data with
      | none => .reject .missingData
      | some d =>
        .run (.uploaded d) (.fromRequest r.business_context) (r.n_components.getD 5)
          (r.scale_features.getD true) (r.include_raw_data.getD false)

/-- Early-rejection JSON bodies, restricted to `status`, the error text and
the optional `platform` entry (the remaining entries of those bodies are
static helper text identical across platforms where both platforms produce
the body). -/
structure EarlyBody where
  status : String
  error : String
  platform : Option String
deriving DecidableEq

/-- The fixed business context attached to basic synthetic data by both
handlers. -/
def generatedBC : BCtx := { cost_per_sensor := some 250, analysis_type := some "sensor_redundancy" }

/-- The empty dict default for `request_data.get('business_context', {})`. -/
def emptyBC : BCtx := { cost_per_sensor := none, analysis_type := none }

/-- An HTTP response body: an early-rejection body, a formatted
`format_response` envelope, or the catch-all 500 handler body (error type,
message, platform, help line). -/
inductive HttpBody (ι : Type) where
  | early (e : EarlyBody)
  | formatted (f : FormattedResponse ι)
  | unexpected (etype emsg platform help : String)
deriving DecidableEq

/-- A (body, HTTP status code) pair as returned by the handlers. -/
structure HttpResp (ι : Type) where
  body : HttpBody ι
  code : ℕ
deriving DecidableEq

/-- Resolution of the non-uploaded data sources: `generate_sample_data` /
`create_coffee_shop_sample` build on `sklearn.datasets.make_classification`
and are modelled as a caller-supplied function producing either the matrix
plus the dataset business context, or a raised (type, message) error. -/
abbrev Resolver := DataSource → Except (String × String) (Mat × BCtx)

/-- Shared tail of both endpoints once a validated matrix is at hand:
run `process_pca_request`, format, and pick 200 or 400 from the result
status (app.py lines 125-145 / main.py lines 226-246). -/
def runPca {ι : Type} (ins : PcaSuccess → BCtx → ι) (lib : SkLib) (t : Timing)
    (ts platform : String) (X : Mat) (bc : BCtx) (k : ℤ) (scale includeRaw : Bool) :
    HttpResp ι :=
  let res := process_pca_request lib t (.d2 X) k scale
  let f := format_response ins ts platform includeRaw bc res
  ⟨.formatted f, if res.statusStr = "success" then 200 else 400⟩

/-- Handler body for a `Dispatch.run`: resolve the data source (raised
errors land in the endpoint's catch-all 500 handler, whose help line is
platform specific), validate uploaded data (a raise here also lands in the
500 handler), then run the shared tail. -/
def handleRun {ι : Type} (ins : PcaSuccess → BCtx → ι) (lib : SkLib) (t : Timing)
    (resolve : Resolver) (ts platform help500 : String) (src : DataSource)
    (bcSel : BCSel) (k : ℤ) (scale includeRaw : Bool) : HttpResp ι :=
  match src with
  | .uploaded d =>
    match validate_input_data d with
    | .error e => ⟨.unexpected "ValueError" (dvErrMsg e) platform help500, 500⟩
    | .ok X =>
      let bc := match bcSel with
        | .fromRequest o => o.getD emptyBC
        | .generatedDefault => generatedBC
        | .fromDataset => emptyBC
      runPca ins lib t ts platform X bc k scale includeRaw
  | src =>
    match resolve src with
    | .error (et, em) => ⟨.unexpected et em platform help500, 500⟩
    | .ok (X, bcData) =>
      let bc := match bcSel with
        | .fromRequest o => o.getD emptyBC
        | .generatedDefault => generatedBC
        | .fromDataset => bcData
      runPca ins lib t ts platform X bc k scale includeRaw

/-- The local endpoint's early-rejection responses (app.py lines 66-74 and
109-115). -/
def localReject : RejectReason → HttpResp ι
  | .invalidJson =>
    ⟨.early ⟨"error", "Invalid JSON or missing Content-Type: application/json header", none⟩, 400⟩
  | .emptyBody => ⟨.early ⟨"error", "", none⟩, 400⟩
  | .missingData =>
    ⟨.early ⟨"error", "Missing " ++ sq ++ "data" ++ sq ++ " field in request", none⟩, 400⟩

/-- The cloud endpoint's early-rejection responses (main.py lines 130-149
and 209-216); the local handler never produces `emptyBody`. -/
def gcpReject : RejectReason → HttpResp ι
  | .invalidJson => ⟨.early ⟨"error", "Invalid JSON format", some "gcp-cloud-functions"⟩, 400⟩
  | .emptyBody => ⟨.early ⟨"error", "Empty request body", some "gcp-cloud-functions"⟩, 400⟩
  | .missingData =>
    ⟨.early ⟨"error", "Missing " ++ sq ++ "data" ++ sq ++ " field in request",
      some "gcp-cloud-functions"⟩, 400⟩

/-- The local endpoint's translation from a dispatch decision to a
response (the local handler never produces `runGcs`; that branch is
unreachable). -/
def localHandleDispatch {ι : Type} (ins : PcaSuccess → BCtx → ι) (lib : SkLib)
    (t : Timing) (resolve : Resolver) (ts : String) : Dispatch → HttpResp ι
  | .reject rr => localReject rr
  | .run src bcSel k scale iraw =>
    handleRun ins lib t resolve ts "local-flask"
      "Check server logs for detailed error information" src bcSel k scale iraw
  | .runGcs _ _ _ _ _ => localReject .invalidJson

/-- The full local POST /pca endpoint on a parsed request. -/
def localRespond {ι : Type} (ins : PcaSuccess → BCtx → ι) (lib : SkLib) (t : Timing)
    (resolve : Resolver) (ts : String) (oreq : Option Req) : HttpResp ι :=
  localHandleDispatch ins lib t resolve ts (localDispatch oreq)

/-- The GCS load branch of the cloud endpoint (main.py lines 154-175):
failures are answered directly with a 400 `GCSLoadError` body. -/
def gcpGcs {ι : Type} (ins : PcaSuccess → BCtx → ι) (lib : SkLib) (t : Timing)
    (resolveGcs : String → String → Except String (Mat × BCtx)) (ts : String)
    (bucket path : String) (k : ℤ) (scale iraw : Bool) : HttpResp ι :=
  match resolveGcs bucket path with
  | .error msg =>
    ⟨.unexpected "GCSLoadError"
      ("Failed to load data from gs://" ++ bucket ++ "/" ++ path ++ ": " ++ msg)
      "gcp-cloud-functions"
      "Ensure bucket exists, file is accessible, and function has storage permissions", 400⟩
  | .ok (X, bcData) => runPca ins lib t ts "gcp-cloud-functions" X bcData k scale iraw

/-- The cloud endpoint's translation from a dispatch decision to a
response. -/
def gcpHandleDispatch {ι : Type} (ins : PcaSuccess → BCtx → ι) (lib : SkLib)
    (t : Timing) (resolve : Resolver)
    (resolveGcs : String → String → Except String (Mat × BCtx)) (ts : String) :
    Dispatch → HttpResp ι
  | .reject rr => gcpReject rr
  | .run src bcSel k scale iraw =>
    handleRun ins lib t resolve ts "gcp-cloud-functions"
      "Check Cloud Functions logs for detailed error information" src bcSel k scale iraw
  | .runGcs bucket path k scale iraw =>
    gcpGcs ins lib t resolveGcs ts bucket path k scale iraw

/-- The full cloud POST endpoint on a parsed request. -/
def gcpRespond {ι : Type} (ins : PcaSuccess → BCtx → ι) (lib : SkLib) (t : Timing)
    (resolve : Resolver) (resolveGcs : String → String → Except String (Mat × BCtx))
    (ts : String) (oreq : Option Req) : HttpResp ι :=
  gcpHandleDispatch ins lib t resolve resolveGcs ts (gcpDispatch oreq)

theorem sum_map_sub_div (l : List ℚ) (a s : ℚ) :
    (l.map (fun x => (x - a) / s)).sum = (l.sum - l.length * a) / s := by
  induction l with
  | nil => simp
  | cons x t ih =>
    simp only [List.map_cons, List.sum_cons, ih, List.length_cons]
    rw [div_add_div_same]
    congr 1
    push_cast
    ring

theorem sum_map_div (l : List ℚ) (f : ℚ → ℚ) (c : ℚ) :
    (l.map (fun x => f x / c)).sum = (l.map f).sum / c := by
  induction l with
  | nil => simp
  | cons x t ih =>
    simp only [List.map_cons, List.sum_cons, ih, div_add_div_same]

/-- A standardised list has mean zero. -/
theorem meanL_map_std (l : List ℚ) (s : ℚ) (hn : (l.length : ℚ) ≠ 0) :
    meanL (l.map (fun x => (x - meanL l) / s)) = 0 := by
  unfold meanL
  rw [List.length_map, sum_map_sub_div]
  have h1 : l.sum - (l.length : ℚ) * (l.sum / (l.length : ℚ)) = 0 := by
    field_simp
  rw [h1]
  simp

/-- A standardised list has variance one when the divisor squares to the
original (non-zero) variance. -/
theorem varL_map_std (l : List ℚ) (s : ℚ) (hn : (l.length : ℚ) ≠ 0)
    (hs : s ^ 2 = varL l) (hv : varL l ≠ 0) :
    varL (l.map (fun x => (x - meanL l) / s)) = 1 := by
  unfold varL
  rw [List.length_map, meanL_map_std l s hn]
  simp only [sub_zero, List.map_map]
  have hcomp : ((fun y : ℚ => y ^ 2) ∘ fun x => (x - meanL l) / s)
      = fun x => (x - meanL l) ^ 2 / s ^ 2 := by
    funext x
    simp [div_pow]
  rw [hcomp, sum_map_div, hs]
  have h2 : ((l.map (fun x => (x - meanL l) ^ 2)).sum) = varL l * l.length := by
    unfold varL
    field_simp
  rw [h2]
  field_simp

theorem getD_map_range (f : ℕ → ℚ) (m j : ℕ) (h : j < m) (d : ℚ) :
    ((List.range m).map f).getD j d = f j := by
  have hlen : j < ((List.range m).map f).length := by simpa using h
  rw [List.getD_eq_getElem _ _ hlen]
  simp

/-- Column `j` of a matrix built by mapping a per-column formula over the
rows equals the mapped original column. -/
theorem col_map_range (X : Mat) (g : ℚ → ℕ → ℚ) (j : ℕ) (h : j < nCols X) :
    col (X.map (fun r => (List.range (nCols X)).map
        (fun j' => g (r.getD j' 0) j'))) j
      = (col X j).map (fun x => g x j) := by
  simp only [col, List.map_map]
  refine List.map_congr_left ?_
  intro r _
  simp only [Function.comp]
  exact getD_map_range _ _ _ h _

theorem length_col (X : Mat) (j : ℕ) : (col X j).length = X.length := by
  simp [col]

theorem nCols_cons (r : List ℚ) (t : Mat) : nCols (r :: t) = r.length := rfl

/-- Under the validity hypotheses (enough samples and features, admissible
`n_components`, no constant feature) the `try` body of
`process_pca_request` reaches the success branch. -/
theorem pcaCoreExc_valid (lib : SkLib) (t : Timing) (X : Mat) (k : ℤ)
    (scale : Bool) (hn : 2 ≤ X.length) (hm : 1 ≤ nCols X)
    (hk1 : 1 ≤ k) (hk2 : k ≤ ((min X.length (nCols X) : ℕ) : ℤ))
    (hv : ∀ j, j < nCols X → colVar X j ≠ 0) :
    pcaCoreExc lib t (.d2 X) k scale = .ok (mkSuccess lib t X k scale) := by
  have hfil : (List.range (nCols X)).filter (fun j => decide (colVar X j = 0)) = [] := by
    rw [List.filter_eq_nil_iff]
    intro j hj
    simp only [decide_eq_true_eq]
    exact hv j (List.mem_range.mp hj)
  simp only [pcaCoreExc]
  rw [if_neg (by omega : ¬ X.length < 2), if_neg (by omega : ¬ nCols X < 1),
    if_neg (not_lt.mpr hk2), if_neg (not_lt.mpr hk1), hfil]
  simp

/-- With a never-raising library and a successful conversion, the full
model coincides with the post-conversion model used by the other claims. -/
theorem process_full_agrees (lib : SkLib) (t : Timing) (a : NpArray) (k : ℤ)
    (scale : Bool) :
    process_pca_request_full lib.toFallible t (.conv a) k scale =
      liftResult (process_pca_request lib t a k scale) := by
  have hcore : coreF lib.toFallible t a k scale =
      match pcaCoreExc lib t a k scale with
      | .ok s => .ok s
      | .error e => .error ⟨"ValueError", coreErrMsg e⟩ := by
    cases a with
    | d0 x => rfl
    | d1 xs => rfl
    | higher x y z rest => rfl
    | d2 X =>
      cases scale with
      | true =>
        simp only [coreF, pcaCoreExc]
        split_ifs <;> rfl
      | false =>
        simp only [coreF, pcaCoreExc]
        split_ifs <;> first | rfl | contradiction
  rw [process_pca_request_full, hcore, process_pca_request]
  cases pcaCoreExc lib t a k scale <;> rfl

/-- Columns of the standardised matrix have mean 0 and variance 1. -/
theorem standardized_cols (lib : SkLib) (X : Mat) (hs : ScalerSpec lib X)
    (hn : 2 ≤ X.length) (hv : ∀ j, j < nCols X → colVar X j ≠ 0) :
    ∀ j, j < nCols X →
      colMean (lib.scalerFit X).transformed j = 0 ∧
      colVar (lib.scalerFit X).transformed j = 1 := by
  intro j hj
  obtain ⟨hmean, hslen, hsig, htr⟩ := hs
  have hcol : col (lib.scalerFit X).transformed j
      = (col X j).map (fun x => (x - colMean X j) / (lib.scalerFit X).scale.getD j 0) := by
    rw [htr]
    exact col_map_range X
      (fun x j' => (x - colMean X j') / (lib.scalerFit X).scale.getD j' 0) j hj
  have hlen : ((col X j).length : ℚ) ≠ 0 := by
    rw [length_col]
    exact Nat.cast_ne_zero.mpr (by omega)
  constructor
  · show meanL (col (lib.scalerFit X).transformed j) = 0
    rw [hcol]
    exact meanL_map_std (col X j) _ hlen
  · show varL (col (lib.scalerFit X).transformed j) = 1
    rw [hcol]
    exact varL_map_std (col X j) _ hlen (hsig j hj).2 (hv j hj)

/-- The standardised matrix has the same shape as its input. -/
theorem scaler_shape (lib : SkLib) (X : Mat) (hs : ScalerSpec lib X)
    (hX : X ≠ []) :
    (lib.scalerFit X).transformed.length = X.length ∧
    nCols (lib.scalerFit X).transformed = nCols X := by
  obtain ⟨-, -, -, htr⟩ := hs
  refine ⟨by rw [htr]; simp, ?_⟩
  rw [htr]
  cases X with
  | nil => exact absurd rfl hX
  | cons r t => simp [nCols_cons, nCols]

/-! ## Claim theorems -/

/-- C1: for every 2-D numeric input with at least 2 samples, at least 1
feature and no zero-variance column, calling `process_pca_request` with
`n_components` greater than `min(n_samples, n_features)` yields the
validation-error result for the over-large `n_components` (the internal
`ValueError` of pca_core.py line 69, caught and rendered at lines
134-153). -/
theorem claim1_ncomponents_too_large (lib : SkLib) (t : Timing) (X : Mat)
    (k : ℤ) (scale : Bool) (hrect : IsRect X) (hn : 2 ≤ X.length)
    (hm : 1 ≤ nCols X) (hv : ∀ j, j < nCols X → colVar X j ≠ 0)
    (hk : ((min X.length (nCols X) : ℕ) : ℤ) < k) :
    process_pca_request lib t (.d2 X) k scale =
      .error { error_type := "ValueError"
               error_message := coreErrMsg (.nCompTooLarge k (min X.length (nCols X)))
               input_info := ⟨ndarrayTypeStr, [X.length, nCols X], k, scale⟩
               execution_time_ms := roundTo 2 t.errMs } := by
  have hcore : pcaCoreExc lib t (.d2 X) k scale =
      .error (.nCompTooLarge k (min X.length (nCols X))) := by
    simp only [pcaCoreExc]
    rw [if_neg (by omega : ¬ X.length < 2), if_neg (by omega : ¬ nCols X < 1),
      if_pos hk]
  simp [process_pca_request, hcore, npShape, shape2]

theorem claim1_witness :
    ((min (2:ℕ) 2 : ℕ) : ℤ) < 3 ∧
    process_pca_request sampleLib ⟨1, 1, 1, 1⟩ (.d2 [[1, 3], [3, 1]]) 3 true =
      .error { error_type := "ValueError"
               error_message := coreErrMsg (.nCompTooLarge 3 (min 2 2))
               input_info := ⟨ndarrayTypeStr, [2, 2], 3, true⟩
               execution_time_ms := roundTo 2 1 } :=
  ⟨by decide,
    claim1_ncomponents_too_large sampleLib ⟨1, 1, 1, 1⟩ [[1, 3], [3, 1]] 3 true
      (by decide) (by decide) (by decide)
      (by
        intro j hj
        have hj2 : j < 2 := hj
        interval_cases j <;> norm_num [colVar, varL, col, meanL])
      (by decide)⟩

/-- C5: for every numeric array form that is not 2-dimensional (a scalar,
a 1-D array, or an array of 3 or more dimensions), `validate_input_data`
raises a `ValueError` (one of the three dimension errors) and does not
return an array. -/
theorem claim5_non_2d_rejected (a : NpArray) (h : npNdim a ≠ 2) :
    ∃ e, validate_input_data a = .error e ∧
      (e = DVError.scalarData ∨ e = DVError.oneDim ∨
        ∃ d, 2 < d ∧ e = DVError.tooManyDims d) := by
  cases a with
  | d0 x => exact ⟨.scalarData, rfl, Or.inl rfl⟩
  | d1 xs => exact ⟨.oneDim, rfl, Or.inr (Or.inl rfl)⟩
  | d2 m => exact absurd rfl h
  | higher x y z rest =>
    exact ⟨.tooManyDims (npNdim (.higher x y z rest)), rfl,
      Or.inr (Or.inr ⟨3 + rest.length, by omega, rfl⟩)⟩

theorem claim5_witness :
    npNdim (.d1 [1, 2]) ≠ 2 ∧
    ∃ e, validate_input_data (.d1 [1, 2]) = .error e ∧
      (e = DVError.scalarData ∨ e = DVError.oneDim ∨
        ∃ d, 2 < d ∧ e = DVError.tooManyDims d) :=
  ⟨by decide, claim5_non_2d_rejected (.d1 [1, 2]) (by decide)⟩

/-- C6: for every 2-D numeric input with at least 2 samples in which some
column has zero variance, `validate_input_data` raises the `ValueError`
that names exactly the indices of the zero-variance columns. -/
theorem claim6_zero_variance_named (X : Mat) (hrect : IsRect X)
    (hn : 2 ≤ X.length) (j0 : ℕ) (hj : j0 < nCols X) (hz : colVar X j0 = 0) :
    ∃ idxs, validate_input_data (.d2 X) = .error (.zeroVariance idxs) ∧
      idxs ≠ [] ∧ ∀ j, j ∈ idxs ↔ (j < nCols X ∧ colVar X j = 0) := by
  set idxs := (List.range (nCols X)).filter (fun j => decide (colVar X j = 0))
    with hidxs
  have hmem : ∀ j, j ∈ idxs ↔ (j < nCols X ∧ colVar X j = 0) := by
    intro j
    simp [hidxs, List.mem_filter, List.mem_range]
  have hne : idxs ≠ [] := List.ne_nil_of_mem ((hmem j0).mpr ⟨hj, hz⟩)
  refine ⟨idxs, ?_, hne, hmem⟩
  simp only [validate_input_data]
  rw [if_neg (by omega : ¬ X.length < 2), if_neg (by omega : ¬ nCols X < 1),
    if_neg hne]

theorem claim6_witness :
    colVar [[1, 2], [3, 2]] 1 = 0 ∧
    ∃ idxs, validate_input_data (.d2 [[1, 2], [3, 2]]) = .error (.zeroVariance idxs) ∧
      idxs ≠ [] ∧ ∀ j, j ∈ idxs ↔ (j < nCols [[1, 2], [3, 2]] ∧ colVar [[1, 2], [3, 2]] j = 0) :=
  ⟨by norm_num [colVar, varL, col, meanL],
    claim6_zero_variance_named [[1, 2], [3, 2]] (by decide) (by decide) 1
      (by decide) (by norm_num [colVar, varL, col, meanL])⟩

/-- C8: `process_pca_request` is total at its interface: for every raw
input — including malformed data the `np.array` conversion rejects, a bad
`n_components`, and an internal failure of any fallible library — it
never raises and always returns a dict whose status is `"success"` or
`"error"`; every error result carries the raised exception's type and
message, the `input_info` section (with the requested `n_components`, the
`scale_features` flag, and `type(data)` / `getattr(data, 'shape',
'unknown')` as bound at raise time), and the measured execution time. -/
theorem claim8_total_interface (lib : SkLibF) (t : Timing) (d : PyData)
    (k : ℤ) (scale : Bool) :
    ((process_pca_request_full lib t d k scale).statusStr = "success" ∧
      ∃ s, process_pca_request_full lib t d k scale = .success s) ∨
    ((process_pca_request_full lib t d k scale).statusStr = "error" ∧
      ∃ exc : PyExc, ∃ info : FullInputInfo,
        process_pca_request_full lib t d k scale =
          .error ⟨exc.etype, exc.msg, info, roundTo 2 t.errMs⟩ ∧
        info.n_components_requested = k ∧ info.scale_features = scale) := by
  cases d with
  | malformed ty exc =>
    exact Or.inr ⟨rfl, exc, ⟨ty, .unknown, k, scale⟩, rfl, rfl, rfl⟩
  | conv a =>
    cases hE : coreF lib t a k scale with
    | ok s =>
      refine Or.inl ⟨?_, s, ?_⟩ <;>
        simp [process_pca_request_full, hE, FullResult.statusStr]
    | error exc =>
      refine Or.inr ⟨?_, exc, ⟨ndarrayTypeStr, .shape (npShape a), k, scale⟩,
        ?_, rfl, rfl⟩ <;>
        simp [process_pca_request_full, hE, FullResult.statusStr]

/-- C4: for every valid 2-D input, `process_pca_request` with
`scale_features=True` standardises the features before invoking the
library PCA (the matrix handed to PCA has column mean 0 and column
variance 1) and records the scaler's mean and std in
`metadata.scaling_parameters`, while with `scale_features=False` it
invokes PCA on the unmodified input and `scaling_parameters` is `None`;
in both cases `scaling_applied` equals the `scale_features` argument and
the `performance` section reports the timed execution. -/
theorem claim4_scaling_orchestration (lib : SkLib) (t : Timing) (X : Mat)
    (k : ℤ) (hrect : IsRect X) (hn : 2 ≤ X.length) (hm : 1 ≤ nCols X)
    (hk1 : 1 ≤ k) (hk2 : k ≤ ((min X.length (nCols X) : ℕ) : ℤ))
    (hv : ∀ j, j < nCols X → colVar X j ≠ 0)
    (hs : ScalerSpec lib X) (hp : PcaSpec lib) :
    (∃ s, process_pca_request lib t (.d2 X) k true = .success s ∧
      s.scaling_applied = true ∧
      s.metadata.scaling_parameters =
        some ⟨(List.range (nCols X)).map (colMean X), (lib.scalerFit X).scale⟩ ∧
      (∀ j, j < nCols X → ((lib.scalerFit X).scale.getD j 0) ^ 2 = colVar X j) ∧
      s.transformed_data =
        (lib.pcaFit k.toNat (lib.scalerFit X).transformed).transformed ∧
      (∀ j, j < nCols X →
        colMean (lib.scalerFit X).transformed j = 0 ∧
        colVar (lib.scalerFit X).transformed j = 1) ∧
      s.performance =
        ⟨roundTo 2 t.execMs, roundTo 2 t.memUsedMb, roundTo 2 t.peakMemMb⟩) ∧
    (∃ s, process_pca_request lib t (.d2 X) k false = .success s ∧
      s.scaling_applied = false ∧
      s.metadata.scaling_parameters = none ∧
      s.transformed_data = (lib.pcaFit k.toNat X).transformed ∧
      s.performance =
        ⟨roundTo 2 t.execMs, roundTo 2 t.memUsedMb, roundTo 2 t.peakMemMb⟩) := by
  have hT := pcaCoreExc_valid lib t X k true hn hm hk1 hk2 hv
  have hF := pcaCoreExc_valid lib t X k false hn hm hk1 hk2 hv
  constructor
  · refine ⟨mkSuccess lib t X k true, by simp [process_pca_request, hT], rfl,
      ?_, fun j hj => (hs.2.2.1 j hj).2, rfl,
      standardized_cols lib X hs hn hv, rfl⟩
    show some (⟨(lib.scalerFit X).mean, (lib.scalerFit X).scale⟩ : ScalingParams) = _
    rw [hs.1]
  · exact ⟨mkSuccess lib t X k false, by simp [process_pca_request, hF], rfl,
      rfl, rfl, rfl⟩

/-- C9: every successful result of `process_pca_request` on an
`(n_samples, n_features)` input with `k` requested components satisfies:
`input_shape = [n_samples, n_features]`, `output_shape = [n_samples, k]`,
`explained_variance_ratio` has length `k`, `transformed_data` has length
`n_samples`, `principal_components` has shape `[k, n_features]`, and
`metadata.n_components_actual` equals `metadata.n_components_requested`. -/
theorem claim9_success_shapes (lib : SkLib) (t : Timing) (X : Mat) (k : ℤ)
    (scale : Bool) (hrect : IsRect X) (hn : 2 ≤ X.length) (hm : 1 ≤ nCols X)
    (hk1 : 1 ≤ k) (hk2 : k ≤ ((min X.length (nCols X) : ℕ) : ℤ))
    (hv : ∀ j, j < nCols X → colVar X j ≠ 0)
    (hs : scale = true → ScalerSpec lib X) (hp : PcaSpec lib) :
    ∃ s, process_pca_request lib t (.d2 X) k scale = .success s ∧
      s.input_shape = [X.length, nCols X] ∧
      s.output_shape = [X.length, k.toNat] ∧
      s.explained_variance_ratio.length = k.toNat ∧
      s.transformed_data.length = X.length ∧
      s.principal_components.length = k.toNat ∧
      (∀ r ∈ s.principal_components, r.length = nCols X) ∧
      s.metadata.n_components_actual = k.toNat ∧
      (s.metadata.n_components_actual : ℤ) = s.metadata.n_components_requested := by
  have hcore := pcaCoreExc_valid lib t X k scale hn hm hk1 hk2 hv
  have hXne : X ≠ [] := by
    intro h
    rw [h] at hn
    simp at hn
  have hslen : (if scale then (lib.scalerFit X).transformed else X).length = X.length ∧
      nCols (if scale then (lib.scalerFit X).transformed else X) = nCols X := by
    cases scale with
    | false => simp
    | true => simpa using scaler_shape lib X (hs rfl) hXne
  obtain ⟨hp1, hp2, hp3, hp4, hp5, hp6⟩ :=
    hp k.toNat (if scale then (lib.scalerFit X).transformed else X)
  have hTlen : (lib.pcaFit k.toNat
      (if scale then (lib.scalerFit X).transformed else X)).transformed.length
      = X.length := hp1.trans hslen.1
  have hTcols : nCols (lib.pcaFit k.toNat
      (if scale then (lib.scalerFit X).transformed else X)).transformed = k.toNat := by
    cases hT : (lib.pcaFit k.toNat
        (if scale then (lib.scalerFit X).transformed else X)).transformed with
    | nil =>
      rw [hT] at hTlen
      simp at hTlen
      omega
    | cons r rest =>
      rw [nCols_cons]
      refine hp2 r ?_
      rw [hT]
      exact List.mem_cons_self r rest
  refine ⟨mkSuccess lib t X k scale, by simp [process_pca_request, hcore], rfl,
    ?_, hp5, hTlen, hp3, fun r hr => (hp4 r hr).trans hslen.2, hp6, ?_⟩
  · show shape2 (lib.pcaFit k.toNat
      (if scale then (lib.scalerFit X).transformed else X)).transformed = _
    rw [shape2, hTlen, hTcols]
  · show ((lib.pcaFit k.toNat
      (if scale then (lib.scalerFit X).transformed else X)).nComponentsFitted : ℤ) = k
    rw [hp6]
    exact Int.toNat_of_nonneg (by omega)

/-- The sample library meets the scaler contract on the concrete matrix
`[[1, 3], [3, 1]]`, whose two columns both have variance 1. -/
theorem sampleLib_scalerSpec_ex : ScalerSpec sampleLib [[1, 3], [3, 1]] := by
  refine ⟨rfl, rfl, ?_, ?_⟩
  · intro j hj
    have hj2 : j < 2 := hj
    interval_cases j <;>
      constructor <;>
      norm_num [sampleLib, nCols, List.replicate, List.getD, colVar, varL, col,
        meanL]
  · norm_num [sampleLib, nCols, List.replicate, List.getD, List.range_succ,
      colMean, meanL, col]

/-- All column variances of `[[1, 3], [3, 1]]` are non-zero. -/
theorem exMat_no_zero_var :
    ∀ j, j < nCols [[1, 3], [3, 1]] → colVar [[1, 3], [3, 1]] j ≠ 0 := by
  intro j hj
  have hj2 : j < 2 := hj
  interval_cases j <;> norm_num [colVar, varL, col, meanL]

theorem claim4_witness :
    ScalerSpec sampleLib [[1, 3], [3, 1]] ∧
    ∃ s, process_pca_request sampleLib ⟨1, 1, 1, 1⟩ (.d2 [[1, 3], [3, 1]]) 1 true =
        .success s ∧
      s.scaling_applied = true ∧
      s.metadata.scaling_parameters =
        some ⟨(List.range (nCols [[1, 3], [3, 1]])).map (colMean [[1, 3], [3, 1]]),
          (sampleLib.scalerFit [[1, 3], [3, 1]]).scale⟩ ∧
      (∀ j, j < nCols [[1, 3], [3, 1]] →
        colMean (sampleLib.scalerFit [[1, 3], [3, 1]]).transformed j = 0 ∧
        colVar (sampleLib.scalerFit [[1, 3], [3, 1]]).transformed j = 1) := by
  refine ⟨sampleLib_scalerSpec_ex, ?_⟩
  obtain ⟨⟨s, h1, h2, h3, -, -, h6, -⟩, -⟩ :=
    claim4_scaling_orchestration sampleLib ⟨1, 1, 1, 1⟩ [[1, 3], [3, 1]] 1
      (by decide) (by decide) (by decide) (by decide) (by decide)
      exMat_no_zero_var sampleLib_scalerSpec_ex sampleLib_pcaSpec
  exact ⟨s, h1, h2, h3, h6⟩

theorem claim9_witness :
    PcaSpec sampleLib ∧
    ∃ s, process_pca_request sampleLib ⟨1, 1, 1, 1⟩ (.d2 [[1, 3], [3, 1]]) 1 true =
        .success s ∧
      s.input_shape = [2, 2] ∧
      s.output_shape = [2, 1] ∧
      s.explained_variance_ratio.length = 1 ∧
      s.transformed_data.length = 2 ∧
      s.principal_components.length = 1 ∧
      s.metadata.n_components_actual = 1 := by
  refine ⟨sampleLib_pcaSpec, ?_⟩
  obtain ⟨s, h1, h2, h3, h4, h5, h6, -, h8, -⟩ :=
    claim9_success_shapes sampleLib ⟨1, 1, 1, 1⟩ [[1, 3], [3, 1]] 1 true
      (by decide) (by decide) (by decide) (by decide) (by decide)
      exMat_no_zero_var (fun _ => sampleLib_scalerSpec_ex) sampleLib_pcaSpec
  exact ⟨s, h1, h2, h3, h4, h5, h6, h8⟩

/-- Trivial insights renderer used to evaluate theorems at concrete
inputs. -/
def insU : PcaSuccess → BCtx → Unit := fun _ _ => ()

/-- A resolver that reports sample generation as unavailable. -/
def noResolver : Resolver := fun _ => .error ("ValueError", "resolver unavailable")

/-- A GCS resolver that reports loading as unavailable. -/
def noGcsResolver : String → String → Except String (Mat × BCtx) :=
  fun _ _ => .error "gcs unavailable"

/-- A fixed timing sample. -/
def tOne : Timing := ⟨1, 1, 1, 1⟩

/-- The error dictionary `process_pca_request` produces on
`[[1, 3], [3, 1]]` with `n_components = 5`. -/
def eW : PcaErrorR :=
  { error_type := "ValueError"
    error_message := coreErrMsg (.nCompTooLarge 5 (min 2 2))
    input_info := ⟨ndarrayTypeStr, [2, 2], 5, true⟩
    execution_time_ms := roundTo 2 1 }

/-- C3: for every result of `process_pca_request` whose status is
`"error"`, `format_response` produces a JSON envelope with status
`"error"` containing the error type, the error message and a
`troubleshooting` section, and the POST /pca endpoint returns that
envelope with HTTP status 400. -/
theorem claim3_error_envelope_400 {ι : Type} (ins : PcaSuccess → BCtx → ι)
    (lib : SkLib) (t : Timing) (X : Mat) (k : ℤ) (scale : Bool)
    (e : PcaErrorR) (he : process_pca_request lib t (.d2 X) k scale = .error e)
    (ts platform : String) (iraw : Bool) (bc : BCtx) :
    format_response ins ts platform iraw bc (.error e) =
      .error ts platform ⟨e.error_type, e.error_message, e.input_info, ts⟩
        e.execution_time_ms (errorGuidance e.error_type e.error_message) ∧
    (format_response ins ts platform iraw bc (.error e)).statusStr = "error" ∧
    runPca ins lib t ts platform X bc k scale iraw =
      ⟨.formatted (format_response ins ts platform iraw bc (.error e)), 400⟩ := by
  refine ⟨rfl, rfl, ?_⟩
  simp [runPca, he, PcaResultR.statusStr]

theorem claim3_witness :
    process_pca_request sampleLib tOne (.d2 [[1, 3], [3, 1]]) 5 true = .error eW ∧
    runPca insU sampleLib tOne "T" "local-flask" [[1, 3], [3, 1]] emptyBC 5 true false =
      ⟨.formatted (format_response insU "T" "local-flask" false emptyBC (.error eW)),
        400⟩ := by
  have he : process_pca_request sampleLib tOne (.d2 [[1, 3], [3, 1]]) 5 true =
      .error eW := rfl
  exact ⟨he,
    (claim3_error_envelope_400 insU sampleLib tOne [[1, 3], [3, 1]] 5 true eW he
      "T" "local-flask" false emptyBC).2.2⟩

/-- C10: for every successful PCA result, `format_response` with
`include_raw_data=False` includes the full transformed data exactly when
it has at most 5 rows; with more than 5 rows the response instead carries
`sample_transformed_data` holding the first 5 rows and the total count,
and the full `transformed_data` is present only with
`include_raw_data=True`. -/
theorem claim10_transformed_data_sampling {ι : Type}
    (ins : PcaSuccess → BCtx → ι) (ts plat : String) (bc : BCtx)
    (s : PcaSuccess) (iraw : Bool) :
    ∃ a, format_response ins ts plat iraw bc (.success s) =
        .success ts plat a s.performance (ins s bc) ∧
      (iraw = false → s.transformed_data.length ≤ 5 →
        a.transformed_data = some s.transformed_data ∧
        a.sample_transformed_data = none) ∧
      (iraw = false → 5 < s.transformed_data.length →
        a.transformed_data = none ∧
        a.sample_transformed_data =
          some ⟨s.transformed_data.take 5, s.transformed_data.length⟩) ∧
      (iraw = true →
        a.transformed_data = some s.transformed_data ∧
        a.sample_transformed_data = none) := by
  cases iraw with
  | true =>
    refine ⟨_, rfl, ?_, ?_, fun _ => ⟨rfl, rfl⟩⟩
    · intro h
      exact absurd h (by simp)
    · intro h
      exact absurd h (by simp)
  | false =>
    by_cases h5 : 5 < s.transformed_data.length
    · refine ⟨_, rfl, ?_, ?_, ?_⟩
      · intro _ hle
        omega
      · intro _ _
        constructor <;> simp [format_response, h5]
      · intro h
        exact absurd h (by simp)
    · refine ⟨_, rfl, ?_, ?_, ?_⟩
      · intro _ _
        constructor <;> simp [format_response, h5]
      · intro _ hlt
        omega
      · intro h
        exact absurd h (by simp)

/-- A sample success dictionary with six transformed rows. -/
def sW : PcaSuccess :=
  { input_shape := [6, 2]
    output_shape := [6, 1]
    explained_variance_ratio := [1]
    total_variance_explained := 1
    principal_components := [[1, 0]]
    transformed_data := [[1], [2], [3], [4], [5], [6]]
    scaling_applied := true
    performance := ⟨1, 1, 1⟩
    metadata := ⟨1, 1, none⟩ }

theorem claim10_witness :
    ∃ a, format_response insU "T" "L" false emptyBC (.success sW) =
      .success "T" "L" a sW.performance () ∧
      a.transformed_data = none ∧
      a.sample_transformed_data = some ⟨[[1], [2], [3], [4], [5]], 6⟩ := by
  obtain ⟨a, ha, -, h2, -⟩ :=
    claim10_transformed_data_sampling insU "T" "L" emptyBC sW false
  obtain ⟨htd, hstd⟩ := h2 rfl (by norm_num [sW])
  refine ⟨a, ha, htd, ?_⟩
  rw [hstd]
  rfl

/-! ## Platform independence of the shared pipeline -/

/-- C7 (amended): for every parsed JSON object that contains neither a
`data` field nor `use_sample_data` set to true, the local endpoint — and,
provided the body is non-empty and carries no usable GCS field pair, the
cloud endpoint — returns HTTP 400 with the JSON error stating the `data`
field is missing, and no PCA pipeline is entered (the dispatch is a
rejection).  The empty body `{}` is excluded for the cloud endpoint: there
it is answered by the earlier "Empty request body" 400 instead (see the
counterexample). -/
theorem claim7_missing_data_400 {ι : Type} (ins : PcaSuccess → BCtx → ι)
    (lib : SkLib) (t : Timing) (resolve : Resolver)
    (resolveGcs : String → String → Except String (Mat × BCtx)) (ts : String)
    (r : Req) (hd : r.data = none) (hu : r.use_sample_data.getD false = false) :
    (localDispatch (some r) = .reject .missingData ∧
     localRespond ins lib t resolve ts (some r) =
       ⟨.early ⟨"error", "Missing " ++ sq ++ "data" ++ sq ++ " field in request",
         none⟩, 400⟩) ∧
    (r ≠ emptyReq → (truthyStr r.gcs_bucket && truthyStr r.gcs_file_path) = false →
      gcpDispatch (some r) = .reject .missingData ∧
      gcpRespond ins lib t resolve resolveGcs ts (some r) =
        ⟨.early ⟨"error", "Missing " ++ sq ++ "data" ++ sq ++ " field in request",
          some "gcp-cloud-functions"⟩, 400⟩) := by
  have hld : localDispatch (some r) = .reject .missingData := by
    simp [localDispatch, hu, hd]
  refine ⟨⟨hld, ?_⟩, ?_⟩
  · simp [localRespond, hld, localHandleDispatch, localReject]
  · intro hne hgcs
    have hgd : gcpDispatch (some r) = .reject .missingData := by
      simp [gcpDispatch, hne, hgcs, hu, hd]
    exact ⟨hgd, by simp [gcpRespond, hgd, gcpHandleDispatch, gcpReject]⟩

theorem claim7_witness :
    localRespond insU sampleLib tOne noResolver "T"
      (some { emptyReq with n_components := some 1 }) =
      ⟨.early ⟨"error", "Missing " ++ sq ++ "data" ++ sq ++ " field in request",
        none⟩, 400⟩ ∧
    gcpRespond insU sampleLib tOne noResolver noGcsResolver "T"
      (some { emptyReq with n_components := some 1 }) =
      ⟨.early ⟨"error", "Missing " ++ sq ++ "data" ++ sq ++ " field in request",
        some "gcp-cloud-functions"⟩, 400⟩ := by
  have h := claim7_missing_data_400 insU sampleLib tOne noResolver noGcsResolver
    "T" { emptyReq with n_components := some 1 } rfl rfl
  exact ⟨h.1.2, (h.2 (by decide) rfl).2⟩

/-- C7 counterexample: the empty JSON object `{}` contains neither `data`
nor `use_sample_data`, yet the cloud endpoint answers it with the
"Empty request body" error, not with the missing-`data` error the claim
requires. -/
theorem claim7_empty_body_cex :
    gcpRespond insU sampleLib tOne noResolver noGcsResolver "T" (some emptyReq) =
      ⟨.early ⟨"error", "Empty request body", some "gcp-cloud-functions"⟩, 400⟩ ∧
    ("Empty request body" : String) ≠
      "Missing " ++ sq ++ "data" ++ sq ++ " field in request" :=
  ⟨rfl, by decide⟩

end SensorScope
